import Mathlib

/-!
Verification of the ObesiTrack prediction pipeline.

This file shallowly embeds the feature-encoding and prediction pipeline of
`app/ml/predictor.py` (class `ObesityPredictor`, the one-hot 31-feature
pipeline used by the application) together with the input normalization of
`app/schemas/prediction.py` (`PredictionInput.normalize_fields` and the
field declarations), and proves properties of the embedding.

Numeric values are modelled as rationals (the Python code computes with
floats over small decimal inputs; every property proved here is about exact
arithmetic identities, comparisons against decimal constants, and list
structure, none of which depend on float rounding).  Python dicts are
modelled as association lists with first-match lookup; `dict` construction
with key overwriting is modelled by `dictInsert`.  Exceptions are modelled
by `Except` with a structured error type.
-/

set_option autoImplicit false
set_option maxRecDepth 4000

namespace ObesiTrack

/-- A scalar value of a feature dict: a number, a string, or Python `None`. -/
inductive Val where
  | num (q : ℚ)
  | str (s : String)
  | null
  deriving DecidableEq

/-- A features mapping, as passed to `ObesityPredictor.predict`. -/
abbrev Features := List (String × Val)

/-- Python `str.lower()` (ASCII, which covers every key and value used). -/
def strLower (s : String) : String := ⟨s.data.map Char.toLower⟩

/-- Python `str.upper()` (ASCII). -/
def strUpper (s : String) : String := ⟨s.data.map Char.toUpper⟩

/-- Python `str.capitalize()`: first character upper-cased, rest lower-cased. -/
def strCapitalize (s : String) : String :=
  match s.data with
  | [] => ""
  | c :: cs => ⟨Char.toUpper c :: cs.map Char.toLower⟩

/-- Lookup `features[key]` on the dict model: first binding of the key, if any. -/
def lookupVal (fs : Features) (k : String) : Option Val :=
  match fs.find? (fun p => p.1 == k) with
  | some p => some p.2
  | none => none

/-- One step of `get_value`: try the key variants in order and return the
first value that is present and not `None`. -/
def firstPresent (fs : Features) : List String → Option Val
  | [] => none
  | k :: ks =>
    match lookupVal fs k with
    | some v => if v = Val.null then firstPresent fs ks else some v
    | none => firstPresent fs ks

/-- The helper `get_value` from `ObesityPredictor.preprocess_features`: tries the key as
given, lower-cased, upper-cased, and capitalized, skipping `None` values. -/
def getValue (fs : Features) (name : String) : Option Val :=
  firstPresent fs [name, strLower name, strUpper name, strCapitalize name]

/-- The error taxonomy of the pipeline (the spec's names for the exceptions
the source raises; `unknownCategory` exists in the taxonomy but is shown
below never to be produced by the encoder). -/
inductive PredError where
  | missingFeature (field : String)
  | notNumeric (field : String)
  | unknownCategory (field value : String)
  | featureWidthMismatch (expected actual : Nat)
  | modelUnavailable
  | zeroDivision
  | badFieldValue (field : String)
  | invalidField (field : String)
  deriving DecidableEq

/-- Python `float(value)` on a feature value: numbers pass through; the
inputs reaching the numeric fields are numbers, so other shapes fail. -/
def asFloat : Val → Option ℚ
  | Val.num q => some q
  | _ => none

/-- Extract a required numerical feature: `get_value` then `float(...)`,
raising `Missing required numerical feature: <name>` when absent. -/
def getNum (fs : Features) (name : String) : Except PredError ℚ :=
  match getValue fs name with
  | none => Except.error (PredError.missingFeature name)
  | some v =>
    match asFloat v with
    | some q => Except.ok q
    | none => Except.error (PredError.notNumeric name)

/-- The opaque classifier artifact: a class token per vector, and an optional
`predict_proba` capability returning a probability vector. -/
structure MLModel where
  classify : List ℚ → Nat
  predictProba : Option (List ℚ → List ℚ)

/-- The predictor's loaded assets: `self.model`, `self.feature_encoder`
(the scaler fitted jointly on the Age/Height/Weight triple), and
`self.label_encoder` (decodes a class token to a class name). -/
structure Predictor where
  model : Option MLModel
  feature_encoder : Option ((ℚ × ℚ × ℚ) → ℚ × ℚ × ℚ)
  label_encoder : Option (Nat → String)

/-- The three originally scaled numerical features, in their fixed order
(`self.original_numerical_features = ['Age', 'Height', 'Weight']`):
extract each (missing → error), then apply the scaler when present. -/
def scaledBlock (p : Predictor) (fs : Features) : Except PredError (List ℚ) :=
  match getNum fs "Age" with
  | Except.error e => Except.error e
  | Except.ok a =>
    match getNum fs "Height" with
    | Except.error e => Except.error e
    | Except.ok h =>
      match getNum fs "Weight" with
      | Except.error e => Except.error e
      | Except.ok w =>
        match p.feature_encoder with
        | none => Except.ok [a, h, w]
        | some sc => Except.ok [(sc (a, h, w)).1, (sc (a, h, w)).2.1, (sc (a, h, w)).2.2]

/-- The five additional raw numerical features, in their fixed order
(`self.additional_numerical_features = ['FCVC','NCP','CH2O','FAF','TUE']`). -/
def rawBlock (fs : Features) : Except PredError (List ℚ) :=
  match getNum fs "FCVC" with
  | Except.error e => Except.error e
  | Except.ok v1 =>
    match getNum fs "NCP" with
    | Except.error e => Except.error e
    | Except.ok v2 =>
      match getNum fs "CH2O" with
      | Except.error e => Except.error e
      | Except.ok v3 =>
        match getNum fs "FAF" with
        | Except.error e => Except.error e
        | Except.ok v4 =>
          match getNum fs "TUE" with
          | Except.error e => Except.error e
          | Except.ok v5 => Except.ok [v1, v2, v3, v4, v5]

/-- The Gender capitalization fix applied to categorical values:
`value.capitalize()` when the field is `gender` and the value is a string. -/
def genderFix (name : String) (v : Val) : Val :=
  if strLower name = "gender" then
    match v with
    | Val.str s => Val.str (strCapitalize s)
    | v => v
  else v

/-- Extract a required categorical feature value (missing → error),
with the gender capitalization fix. -/
def getCat (fs : Features) (name : String) : Except PredError Val :=
  match getValue fs name with
  | none => Except.error (PredError.missingFeature name)
  | some v => Except.ok (genderFix name v)

/-- The fixed categorical vocabularies (`self.categorical_values`). -/
def genderVocab : List String := ["Female", "Male"]

/-- Vocabulary shared by the yes/no categorical fields. -/
def yesNoVocab : List String := ["no", "yes"]

/-- Vocabulary of `CAEC` (and of `CALC`, which is identical). -/
def caecVocab : List String := ["Always", "Frequently", "Sometimes", "no"]

/-- Vocabulary of `MTRANS`. -/
def mtransVocab : List String :=
  ["Automobile", "Bike", "Motorbike", "Public_Transportation", "Walking"]

/-- One-hot encoding of a value against a complete fixed vocabulary: one
column per vocabulary entry, 1 where the entry equals the value, else 0.
This is what `pd.get_dummies` followed by `reindex(columns=..., fill_value=0)`
computes: a value outside the vocabulary yields an all-zero block. -/
def oneHot (vocab : List String) (v : Val) : List ℚ :=
  vocab.map (fun s => if v = Val.str s then 1 else 0)

/-- The categorical one-hot block: the eight categorical features in their
fixed order, each extracted (missing → error) and then one-hot encoded
against its complete vocabulary. -/
def catBlock (fs : Features) : Except PredError (List ℚ) :=
  match getCat fs "Gender" with
  | Except.error e => Except.error e
  | Except.ok g =>
    match getCat fs "family_history_with_overweight" with
    | Except.error e => Except.error e
    | Except.ok fh =>
      match getCat fs "FAVC" with
      | Except.error e => Except.error e
      | Except.ok fv =>
        match getCat fs "CAEC" with
        | Except.error e => Except.error e
        | Except.ok ca =>
          match getCat fs "SMOKE" with
          | Except.error e => Except.error e
          | Except.ok sm =>
            match getCat fs "SCC" with
            | Except.error e => Except.error e
            | Except.ok sc =>
              match getCat fs "CALC" with
              | Except.error e => Except.error e
              | Except.ok cl =>
                match getCat fs "MTRANS" with
                | Except.error e => Except.error e
                | Except.ok mt =>
                  Except.ok (oneHot genderVocab g ++ oneHot yesNoVocab fh ++
                    oneHot yesNoVocab fv ++ oneHot caecVocab ca ++
                    oneHot yesNoVocab sm ++ oneHot yesNoVocab sc ++
                    oneHot caecVocab cl ++ oneHot mtransVocab mt)

/-- BMI from the original, unscaled values: `get_value('Height')` and
`get_value('Weight')` are re-read from the raw input (never from the scaled
block), converted to float, and combined as `weight / (height/100)**2`.
A zero height raises `ZeroDivisionError` in the source. -/
def computeBMI (fs : Features) : Except PredError ℚ :=
  match getValue fs "Height", getValue fs "Weight" with
  | some hv, some wv =>
    match asFloat hv, asFloat wv with
    | some h, some w =>
      if h = 0 then Except.error PredError.zeroDivision
      else Except.ok (w / (h / 100) ^ 2)
    | _, _ => Except.error (PredError.notNumeric "Height")
  | _, _ => Except.error (PredError.missingFeature "Height")

/-- The encoder `ObesityPredictor.preprocess_features`: scaled numerical block, raw
numerical block, categorical one-hot block (concatenated in that fixed
order) and BMI.  Errors arise in source order: missing/NaN scaled features,
then raw features, then categorical features, then the BMI division. -/
def preprocessFeatures (p : Predictor) (fs : Features) :
    Except PredError (List ℚ × ℚ) :=
  match scaledBlock p fs with
  | Except.error e => Except.error e
  | Except.ok s =>
    match rawBlock fs with
    | Except.error e => Except.error e
    | Except.ok r =>
      match catBlock fs with
      | Except.error e => Except.error e
      | Except.ok c =>
        match computeBMI fs with
        | Except.error e => Except.error e
        | Except.ok b => Except.ok (s ++ r ++ c, b)

/-- The width check of `ObesityPredictor.predict`: the generated feature
vector must have exactly 31 columns, anything else raises
`Feature mismatch: generated <n> features, expected 31`. -/
def widthGuard (vec : List ℚ) : Except PredError (List ℚ) :=
  if vec.length = 31 then Except.ok vec
  else Except.error (PredError.featureWidthMismatch 31 vec.length)

/-- Maximum (`np.max`) over the (nonempty) probability row returned by
`predict_proba`. -/
def listMax : List ℚ → ℚ
  | [] => 0
  | q :: qs => qs.foldl max q

/-- The risk mapping table of `ObesityPredictor.predict`
(`risk_map.get(prediction_class, 'Unknown')`). -/
def riskLevel (c : String) : String :=
  if c = "Normal_Weight" then "Low"
  else if c = "Overweight_Level_I" then "Moderate"
  else if c = "Overweight_Level_II" then "Moderate"
  else if c = "Obesity_Type_I" then "High"
  else if c = "Obesity_Type_II" then "Very High"
  else if c = "Obesity_Type_III" then "Extreme"
  else "Unknown"

/-- Python `round` to the nearest integer, ties to even (banker's
rounding), on an exact rational. -/
def roundQ (q : ℚ) : ℤ :=
  let f : ℤ := q.floor
  let frac : ℚ := q - (f : ℚ)
  if frac < 1 / 2 then f
  else if 1 / 2 < frac then f + 1
  else if f % 2 = 0 then f else f + 1

/-- Python `round(x, 2)` on the exact rational BMI value. -/
def round2 (q : ℚ) : ℚ := (roundQ (q * 100) : ℚ) / 100

/-- Recommendation text for BMI below 18.5. -/
def underweightMsg : String :=
  "Your BMI indicates you are underweight. Consider consulting a nutritionist for a healthy weight gain plan."

/-- Recommendation text for BMI in [18.5, 25). -/
def maintainMsg : String :=
  "Your BMI is in the healthy range. Maintain your current healthy lifestyle!"

/-- Recommendation text for BMI in [25, 30). -/
def overweightMsg : String :=
  "Your BMI indicates you are overweight. Focus on balanced nutrition and regular exercise."

/-- Recommendation text for BMI at or above 30. -/
def obesityMsg : String :=
  "Your BMI indicates obesity. We recommend consulting a healthcare professional."

/-- Recommendation text for frequent high-calorie food consumption. -/
def hiCalMsg : String :=
  "Consider reducing the frequency of high-calorie food consumption."

/-- Recommendation text for low daily water intake. -/
def waterMsg : String :=
  "Increase your daily water intake to at least 2 liters per day."

/-- Recommendation text for low physical activity. -/
def activityMsg : String :=
  "Try to incorporate more physical activity into your daily routine."

/-- Recommendation text for constant between-meal snacking. -/
def snackMsg : String :=
  "Try to reduce eating between meals or choose healthier snacks."

/-- The single BMI-band message chosen by the if/elif chain of
`_generate_recommendations`. -/
def bandMsg (bmi : ℚ) : String :=
  if bmi < 37 / 2 then underweightMsg
  else if bmi < 25 then maintainMsg
  else if bmi < 30 then overweightMsg
  else obesityMsg

/-- Condition `features.get('favc', '').lower() == 'yes'`: note the plain lower-case
key lookup (no `get_value` variants here); a non-string stored value would
raise `AttributeError` on `.lower()`. -/
def favcCond (fs : Features) : Except PredError Bool :=
  match lookupVal fs "favc" with
  | none => Except.ok false
  | some (Val.str s) => Except.ok (strLower s == "yes")
  | some _ => Except.error (PredError.badFieldValue "favc")

/-- Value `float(features.get('ch2o', 2))`, again with a plain lower-case key. -/
def ch2oVal (fs : Features) : Except PredError ℚ :=
  match lookupVal fs "ch2o" with
  | none => Except.ok 2
  | some (Val.num q) => Except.ok q
  | some _ => Except.error (PredError.badFieldValue "ch2o")

/-- Value `float(features.get('faf', 0))`, with a plain lower-case key. -/
def fafVal (fs : Features) : Except PredError ℚ :=
  match lookupVal fs "faf" with
  | none => Except.ok 0
  | some (Val.num q) => Except.ok q
  | some _ => Except.error (PredError.badFieldValue "faf")

/-- Condition `features.get('caec', '').lower() == 'always'`, with a plain lower-case
key. -/
def caecCond (fs : Features) : Except PredError Bool :=
  match lookupVal fs "caec" with
  | none => Except.ok false
  | some (Val.str s) => Except.ok (strLower s == "always")
  | some _ => Except.error (PredError.badFieldValue "caec")

/-- The rule engine `ObesityPredictor._generate_recommendations`: exactly one BMI-band
message, then every lifestyle rule whose condition matches, appended in
source order.  (The `prediction_class` parameter is accepted but unused,
exactly as in the source.)  Conditions are evaluated in source order, so a
badly typed field fails in that order. -/
def genRecommendations (_cls : String) (bmi : ℚ) (fs : Features) :
    Except PredError (List String) :=
  match favcCond fs with
  | Except.error e => Except.error e
  | Except.ok cFavc =>
    match ch2oVal fs with
    | Except.error e => Except.error e
    | Except.ok ch =>
      match fafVal fs with
      | Except.error e => Except.error e
      | Except.ok fa =>
        match caecCond fs with
        | Except.error e => Except.error e
        | Except.ok cCaec =>
          Except.ok ([bandMsg bmi] ++
            (if cFavc then [hiCalMsg] else []) ++
            (if ch < 2 then [waterMsg] else []) ++
            (if fa < 1 then [activityMsg] else []) ++
            (if cCaec then [snackMsg] else []))

/-- The result dict assembled by `ObesityPredictor.predict`. -/
structure PredResult where
  prediction : String
  probability : ℚ
  bmi : ℚ
  risk_level : String
  confidence : ℚ
  recommendations : List String
  deriving DecidableEq

/-- The optional probability: `np.max(self.model.predict_proba(X)[0])` when
the artifact has a `predict_proba` capability, else `None`. -/
def probOf (m : MLModel) (vec : List ℚ) : Option ℚ :=
  match m.predictProba with
  | none => none
  | some f => some (listMax (f vec))

/-- Label decoding: `label_encoder.inverse_transform([y])[0]` when a decoder
is loaded, else `str(y_pred)`. -/
def decodeCls (p : Predictor) (y : Nat) : String :=
  match p.label_encoder with
  | some dec => dec y
  | none => toString y

/-- The orchestrator `ObesityPredictor.predict`: fails when the model artifact is absent;
otherwise preprocess, check the 31-column width, classify, read the top
probability when `predict_proba` exists, decode the label (or stringify
the raw token), map the risk tier, generate recommendations, and assemble
the result with `probability`/`confidence` both defaulted to 1.0 when no
probability is available. -/
def predictP (p : Predictor) (fs : Features) : Except PredError PredResult :=
  match p.model with
  | none => Except.error PredError.modelUnavailable
  | some m =>
    match preprocessFeatures p fs with
    | Except.error e => Except.error e
    | Except.ok (vec, bmi) =>
      match widthGuard vec with
      | Except.error e => Except.error e
      | Except.ok vec =>
        match genRecommendations (decodeCls p (m.classify vec)) bmi fs with
        | Except.error e => Except.error e
        | Except.ok recs =>
          Except.ok
            { prediction := decodeCls p (m.classify vec)
              probability := (probOf m vec).getD 1
              bmi := round2 bmi
              risk_level := riskLevel (decodeCls p (m.classify vec))
              confidence := (probOf m vec).getD 1
              recommendations := recs }

/-- The explicit upper-case alias table of
`PredictionInput.normalize_fields` (`field_mapping`). -/
def fieldMapping : List (String × String) :=
  [("GENDER", "gender"), ("AGE", "age"), ("HEIGHT", "height"),
   ("WEIGHT", "weight"),
   ("FAMILY_HISTORY_WITH_OVERWEIGHT", "family_history_with_overweight"),
   ("FAVC", "favc"), ("FCVC", "fcvc"), ("NCP", "ncp"), ("CAEC", "caec"),
   ("SMOKE", "smoke"), ("CH2O", "ch2o"), ("SCC", "scc"), ("FAF", "faf"),
   ("TUE", "tue"), ("CALC", "calc"), ("MTRANS", "mtrans")]

/-- Key normalization `field_mapping.get(key.upper(), key.lower())`. -/
def normKey (k : String) : String :=
  match fieldMapping.find? (fun p => p.1 == strUpper k) with
  | some p => p.2
  | none => strLower k

/-- Python dict assignment `d[k] = v`: overwrite in place when the key is
already bound, else append the new binding. -/
def dictInsert (l : Features) (k : String) (v : Val) : Features :=
  if l.any (fun p => p.1 == k) then
    l.map (fun p => if p.1 == k then (k, v) else p)
  else l ++ [(k, v)]

/-- The validator hook `PredictionInput.normalize_fields`: rebuild the dict with every key
normalized, returning the original dict only when the result is empty. -/
def normalizeFields (d : Features) : Features :=
  let nd := d.foldl (fun acc kv => dictInsert acc (normKey kv.1) kv.2) []
  if nd.isEmpty then d else nd

/-- A required string field of `PredictionInput`. -/
def reqStr (d : Features) (k : String) : Except PredError String :=
  match lookupVal d k with
  | some (Val.str s) => Except.ok s
  | _ => Except.error (PredError.invalidField k)

/-- A required strictly positive numeric field of `PredictionInput`
(`Field(..., gt=0)`). -/
def reqPos (d : Features) (k : String) : Except PredError ℚ :=
  match lookupVal d k with
  | some (Val.num q) =>
    if 0 < q then Except.ok q
    else Except.error (PredError.invalidField k)
  | _ => Except.error (PredError.invalidField k)

/-- An optional string field of `PredictionInput` with its declared
default. -/
def optStr (d : Features) (k : String) (dflt : String) :
    Except PredError String :=
  match lookupVal d k with
  | none => Except.ok dflt
  | some (Val.str s) => Except.ok s
  | some _ => Except.error (PredError.invalidField k)

/-- An optional numeric field of `PredictionInput` with default and range. -/
def optNum (d : Features) (k : String) (dflt lo hi : ℚ) :
    Except PredError ℚ :=
  match lookupVal d k with
  | none => Except.ok dflt
  | some (Val.num q) =>
    if lo ≤ q ∧ q ≤ hi then Except.ok q
    else Except.error (PredError.invalidField k)
  | some _ => Except.error (PredError.invalidField k)

/-- The field validation and defaulting of `PredictionInput` (gender/age/
height/weight required, age an integer in [1,120], height and weight
positive, the remaining fields optional with the declared defaults and
ranges), producing the canonical 16-field lower-case dict that
`input_data.dict()` hands to `ObesityPredictor.predict`. -/
def validateInput (d : Features) : Except PredError Features :=
  match reqStr d "gender" with
  | Except.error e => Except.error e
  | Except.ok g =>
    match lookupVal d "age" with
    | some (Val.num a) =>
      if a.den = 1 ∧ 1 ≤ a ∧ a ≤ 120 then
        match reqPos d "height", reqPos d "weight" with
        | Except.ok hq, Except.ok wq =>
          match optStr d "family_history_with_overweight" "yes",
                optStr d "favc" "yes", optNum d "fcvc" 2 1 3,
                optNum d "ncp" 3 1 4 with
          | Except.ok fh, Except.ok fv, Except.ok fc, Except.ok nc =>
            match optStr d "caec" "Sometimes", optStr d "smoke" "no",
                  optNum d "ch2o" 2 1 3, optStr d "scc" "no" with
            | Except.ok ca, Except.ok sm, Except.ok ch, Except.ok sc =>
              match optNum d "faf" 1 0 3, optNum d "tue" 1 0 2,
                    optStr d "calc" "Sometimes",
                    optStr d "mtrans" "Public_Transportation" with
              | Except.ok fa, Except.ok tu, Except.ok cl, Except.ok mt =>
                Except.ok
                  [("gender", Val.str g), ("age", Val.num a),
                   ("height", Val.num hq), ("weight", Val.num wq),
                   ("family_history_with_overweight", Val.str fh),
                   ("favc", Val.str fv), ("fcvc", Val.num fc),
                   ("ncp", Val.num nc), ("caec", Val.str ca),
                   ("smoke", Val.str sm), ("ch2o", Val.num ch),
                   ("scc", Val.str sc), ("faf", Val.num fa),
                   ("tue", Val.num tu), ("calc", Val.str cl),
                   ("mtrans", Val.str mt)]
              | Except.error e, _, _, _ => Except.error e
              | _, Except.error e, _, _ => Except.error e
              | _, _, Except.error e, _ => Except.error e
              | _, _, _, Except.error e => Except.error e
            | Except.error e, _, _, _ => Except.error e
            | _, Except.error e, _, _ => Except.error e
            | _, _, Except.error e, _ => Except.error e
            | _, _, _, Except.error e => Except.error e
          | Except.error e, _, _, _ => Except.error e
          | _, Except.error e, _, _ => Except.error e
          | _, _, Except.error e, _ => Except.error e
          | _, _, _, Except.error e => Except.error e
        | Except.error e, _ => Except.error e
        | _, Except.error e => Except.error e
      else Except.error (PredError.invalidField "age")
    | _ => Except.error (PredError.invalidField "age")

/-- The service pipeline a request traverses: key normalization
(`normalize_fields`), field validation/defaulting (`PredictionInput`), then
`ObesityPredictor.predict` on the canonical dict. -/
def pipeline (p : Predictor) (d : Features) : Except PredError PredResult :=
  match validateInput (normalizeFields d) with
  | Except.error e => Except.error e
  | Except.ok v => predictP p v

/-- How a key is seen by `normalize_fields`: its upper-cased form (used for
the alias lookup) and its lower-cased form (the fallback).  Two inputs
"differ only in the casing of their keys" when their `caseKey` images
agree pointwise. -/
def caseKey (kv : String × Val) : (String × String) × Val :=
  ((strUpper kv.1, strLower kv.1), kv.2)

/-- Key lists equal up to casing: same order, same values, keys identical
after upper-casing and after lower-casing. -/
def casingEq (d1 d2 : Features) : Prop :=
  d1.map caseKey = d2.map caseKey

instance (d1 d2 : Features) : Decidable (casingEq d1 d2) := by
  unfold casingEq; infer_instance

instance {ε α : Type} [DecidableEq ε] [DecidableEq α] :
    DecidableEq (Except ε α) := fun a b =>
  match a, b with
  | Except.ok x, Except.ok y =>
    if h : x = y then isTrue (by rw [h]) else isFalse (by simp [h])
  | Except.error x, Except.error y =>
    if h : x = y then isTrue (by rw [h]) else isFalse (by simp [h])
  | Except.ok _, Except.error _ => isFalse (by simp)
  | Except.error _, Except.ok _ => isFalse (by simp)

/-- A deterministic stand-in classifier with no `predict_proba`
capability (the shape of the `DummyModel` used by the repository's unit
tests, minus the probability row). -/
def dummyModel : MLModel := { classify := fun _ => 0, predictProba := none }

/-- A predictor with a loaded model, no scaler, no label decoder. -/
def basePredictor : Predictor :=
  { model := some dummyModel, feature_encoder := none, label_encoder := none }

/-- A predictor whose assets failed to load. -/
def noModelPredictor : Predictor :=
  { model := none, feature_encoder := none, label_encoder := none }

/-- The canonical example input of the spec (Scenario A), with the
lower-case keys `input_data.dict()` produces. -/
def exInput : Features :=
  [("gender", Val.str "Male"), ("age", Val.num 30),
   ("height", Val.num 175), ("weight", Val.num 80),
   ("family_history_with_overweight", Val.str "yes"),
   ("favc", Val.str "yes"), ("fcvc", Val.num 2), ("ncp", Val.num 3),
   ("caec", Val.str "Sometimes"), ("smoke", Val.str "no"),
   ("ch2o", Val.num 2), ("scc", Val.str "no"), ("faf", Val.num 1),
   ("tue", Val.num 1), ("calc", Val.str "Sometimes"),
   ("mtrans", Val.str "Public_Transportation")]

/-- Scenario C input: `caec` set to a value outside the CAEC vocabulary. -/
def exInputBadCaec : Features :=
  [("gender", Val.str "Male"), ("age", Val.num 30),
   ("height", Val.num 175), ("weight", Val.num 80),
   ("family_history_with_overweight", Val.str "yes"),
   ("favc", Val.str "yes"), ("fcvc", Val.num 2), ("ncp", Val.num 3),
   ("caec", Val.str "InvalidValue"), ("smoke", Val.str "no"),
   ("ch2o", Val.num 2), ("scc", Val.str "no"), ("faf", Val.num 1),
   ("tue", Val.num 1), ("calc", Val.str "Sometimes"),
   ("mtrans", Val.str "Public_Transportation")]

/-- The canonical example input with every key upper-cased. -/
def exInputUpper : Features :=
  [("GENDER", Val.str "Male"), ("AGE", Val.num 30),
   ("HEIGHT", Val.num 175), ("WEIGHT", Val.num 80),
   ("FAMILY_HISTORY_WITH_OVERWEIGHT", Val.str "yes"),
   ("FAVC", Val.str "yes"), ("FCVC", Val.num 2), ("NCP", Val.num 3),
   ("CAEC", Val.str "Sometimes"), ("SMOKE", Val.str "no"),
   ("CH2O", Val.num 2), ("SCC", Val.str "no"), ("FAF", Val.num 1),
   ("TUE", Val.num 1), ("CALC", Val.str "Sometimes"),
   ("MTRANS", Val.str "Public_Transportation")]

/-- Scenario B input: the canonical input with `weight` removed. -/
def exInputNoWeight : Features :=
  [("gender", Val.str "Male"), ("age", Val.num 30),
   ("height", Val.num 175),
   ("family_history_with_overweight", Val.str "yes"),
   ("favc", Val.str "yes"), ("fcvc", Val.num 2), ("ncp", Val.num 3),
   ("caec", Val.str "Sometimes"), ("smoke", Val.str "no"),
   ("ch2o", Val.num 2), ("scc", Val.str "no"), ("faf", Val.num 1),
   ("tue", Val.num 1), ("calc", Val.str "Sometimes"),
   ("mtrans", Val.str "Public_Transportation")]

/-- A probability row as returned by a two-class `predict_proba`. -/
def probaRow : List ℚ → List ℚ := fun _ => [1 / 5, 4 / 5]

/-- A stand-in classifier that does expose `predict_proba`. -/
def probaModel : MLModel :=
  { classify := fun _ => 0, predictProba := some probaRow }

/-- A predictor around `probaModel`, no scaler, no label decoder. -/
def probaPredictor : Predictor :=
  { model := some probaModel, feature_encoder := none, label_encoder := none }

/-- The result `predict` assembles on `exInput` under `basePredictor`. -/
def exResult : PredResult :=
  { prediction := "0", probability := 1, bmi := 653 / 25,
    risk_level := "Unknown", confidence := 1,
    recommendations := [overweightMsg, hiCalMsg] }

/-- The result `predict` assembles on `exInput` under `probaPredictor`. -/
def exResultProba : PredResult :=
  { prediction := "0", probability := 4 / 5, bmi := 653 / 25,
    risk_level := "Unknown", confidence := 4 / 5,
    recommendations := [overweightMsg, hiCalMsg] }

/-- The 31-column vector encoded from `exInput` with no scaler configured. -/
def exVec : List ℚ :=
  [30, 175, 80, 2, 3, 2, 1, 1,
   0, 1, 0, 1, 0, 1, 0, 0, 1, 0, 1, 0, 1, 0, 0, 0, 1, 0, 0, 0, 0, 1, 0]

/-- The 31-column vector encoded from `exInputBadCaec`: identical except
that the CAEC one-hot block (columns 14-17) is all zeros. -/
def exVecBadCaec : List ℚ :=
  [30, 175, 80, 2, 3, 2, 1, 1,
   0, 1, 0, 1, 0, 1, 0, 0, 0, 0, 1, 0, 1, 0, 0, 0, 1, 0, 0, 0, 0, 1, 0]

/-! ### Inversion lemmas for the embedded pipeline -/

lemma oneHot_length (vocab : List String) (v : Val) :
    (oneHot vocab v).length = vocab.length :=
  List.length_map _ _

lemma scaledBlock_ok_shape {p : Predictor} {fs : Features} {l : List ℚ}
    (h : scaledBlock p fs = Except.ok l) : ∃ a b c, l = [a, b, c] := by
  unfold scaledBlock at h
  repeat' split at h
  all_goals try exact (Except.noConfusion h)
  all_goals exact ⟨_, _, _, (Except.ok.inj h).symm⟩

lemma rawBlock_ok_shape {fs : Features} {l : List ℚ}
    (h : rawBlock fs = Except.ok l) : ∃ a b c d e, l = [a, b, c, d, e] := by
  unfold rawBlock at h
  repeat' split at h
  all_goals try exact (Except.noConfusion h)
  exact ⟨_, _, _, _, _, (Except.ok.inj h).symm⟩

lemma catBlock_ok_inv {fs : Features} {l : List ℚ}
    (h : catBlock fs = Except.ok l) :
    ∃ g fh fv ca sm sc cl mt,
      getCat fs "Gender" = Except.ok g ∧
      getCat fs "family_history_with_overweight" = Except.ok fh ∧
      getCat fs "FAVC" = Except.ok fv ∧
      getCat fs "CAEC" = Except.ok ca ∧
      getCat fs "SMOKE" = Except.ok sm ∧
      getCat fs "SCC" = Except.ok sc ∧
      getCat fs "CALC" = Except.ok cl ∧
      getCat fs "MTRANS" = Except.ok mt ∧
      l = oneHot genderVocab g ++ oneHot yesNoVocab fh ++ oneHot yesNoVocab fv ++
        oneHot caecVocab ca ++ oneHot yesNoVocab sm ++ oneHot yesNoVocab sc ++
        oneHot caecVocab cl ++ oneHot mtransVocab mt := by
  unfold catBlock at h
  repeat' split at h
  all_goals try exact (Except.noConfusion h)
  rename_i xg g hg xfh fh hfh xfv fv hfv xca ca hca xsm sm hsm xsc sc hsc
    xcl cl hcl xmt mt hmt
  exact ⟨g, fh, fv, ca, sm, sc, cl, mt, hg, hfh, hfv, hca, hsm, hsc, hcl,
    hmt, (Except.ok.inj h).symm⟩

lemma preprocessFeatures_ok_inv {p : Predictor} {fs : Features} {v : List ℚ}
    {b : ℚ} (h : preprocessFeatures p fs = Except.ok (v, b)) :
    ∃ s r c, scaledBlock p fs = Except.ok s ∧ rawBlock fs = Except.ok r ∧
      catBlock fs = Except.ok c ∧ computeBMI fs = Except.ok b ∧
      v = s ++ r ++ c := by
  unfold preprocessFeatures at h
  repeat' split at h
  all_goals try exact (Except.noConfusion h)
  simp only [Except.ok.injEq, Prod.mk.injEq] at h
  obtain ⟨h1, h2⟩ := h
  subst h2
  exact ⟨_, _, _, by assumption, by assumption, by assumption, by assumption,
    h1.symm⟩

lemma widthGuard_ok_inv {v w : List ℚ} (h : widthGuard v = Except.ok w) :
    w = v ∧ v.length = 31 := by
  unfold widthGuard at h
  split at h
  · exact ⟨(Except.ok.inj h).symm, by assumption⟩
  · exact (Except.noConfusion h)

lemma getCat_eq_of_getValue {fs : Features} {name : String} {v : Val}
    (hng : ¬ strLower name = "gender") (h : getValue fs name = some v) :
    getCat fs name = Except.ok v := by
  unfold getCat
  rw [h]
  show Except.ok (genderFix name v) = Except.ok v
  unfold genderFix
  rw [if_neg hng]

lemma predictP_ok_inv {p : Predictor} {fs : Features} {res : PredResult}
    (h : predictP p fs = Except.ok res) :
    ∃ m vec bmi recs, p.model = some m ∧
      preprocessFeatures p fs = Except.ok (vec, bmi) ∧
      vec.length = 31 ∧
      genRecommendations (decodeCls p (m.classify vec)) bmi fs =
        Except.ok recs ∧
      res = { prediction := decodeCls p (m.classify vec)
              probability := (probOf m vec).getD 1
              bmi := round2 bmi
              risk_level := riskLevel (decodeCls p (m.classify vec))
              confidence := (probOf m vec).getD 1
              recommendations := recs } := by
  unfold predictP at h
  repeat' split at h
  all_goals try exact (Except.noConfusion h)
  obtain ⟨h1, hlen⟩ := widthGuard_ok_inv (by assumption)
  subst h1
  refine ⟨_, _, _, _, ?_, ?_, hlen, ?_, (Except.ok.inj h).symm⟩ <;> assumption

/-! ### The claims -/

/-- C2: for every input on which the encoder succeeds, the produced feature
vector has width exactly 31 (3 scaled numerical + 5 raw numerical + 23
one-hot columns over the fixed vocabularies), whatever the categorical
values were; and any vector of a different width is rejected by the
width check with a width-mismatch error before the classifier is called. -/
theorem encode_width_invariant :
    (∀ (p : Predictor) (fs : Features) (v : List ℚ) (b : ℚ),
        preprocessFeatures p fs = Except.ok (v, b) → v.length = 31) ∧
    (∀ v : List ℚ, v.length ≠ 31 →
        widthGuard v =
          Except.error (PredError.featureWidthMismatch 31 v.length)) := by
  constructor
  · intro p fs v b h
    obtain ⟨s, r, c, hs, hr, hc, _, rfl⟩ := preprocessFeatures_ok_inv h
    obtain ⟨a1, a2, a3, rfl⟩ := scaledBlock_ok_shape hs
    obtain ⟨b1, b2, b3, b4, b5, rfl⟩ := rawBlock_ok_shape hr
    obtain ⟨g, fh, fv, ca, sm, sc, cl, mt, _, _, _, _, _, _, _, _, rfl⟩ :=
      catBlock_ok_inv hc
    simp [oneHot_length, genderVocab, yesNoVocab, caecVocab, mtransVocab]
  · intro v hv
    unfold widthGuard
    simp [hv]

/-- Witness for C2: the canonical example input encodes to a vector of
width 31, and the empty vector is rejected with a width mismatch. -/
theorem encode_width_invariant_witness :
    exVec.length = 31 ∧
    widthGuard [] =
      Except.error (PredError.featureWidthMismatch 31 ([] : List ℚ).length) :=
  ⟨encode_width_invariant.1 basePredictor exInput exVec (1280 / 49)
      (by with_unfolding_all decide),
    encode_width_invariant.2 [] (by decide)⟩

/-- C4: when the classifier artifact is not loaded, `predict` fails with
the model-unavailable error for every input, valid or not; no mock result
is substituted on this code path. -/
theorem predict_without_model_fails (p : Predictor) (fs : Features)
    (hm : p.model = none) :
    predictP p fs = Except.error PredError.modelUnavailable := by
  unfold predictP
  rw [hm]

/-- Witness for C4: the predictor with unloaded assets fails on the fully
valid canonical input. -/
theorem predict_without_model_fails_witness :
    predictP noModelPredictor exInput =
      Except.error PredError.modelUnavailable :=
  predict_without_model_fails noModelPredictor exInput rfl

/-- C6: the risk tier is determined solely by the fixed table
(Normal_Weight → Low, Overweight_Level_I/II → Moderate, Obesity_Type_I →
High, Obesity_Type_II → Very High, Obesity_Type_III → Extreme, anything
else — including Insufficient_Weight — → Unknown); the mapping is total,
and the assembled result's `risk_level` is exactly the table applied to
its `prediction`. -/
theorem risk_tier_table :
    riskLevel "Normal_Weight" = "Low" ∧
    riskLevel "Overweight_Level_I" = "Moderate" ∧
    riskLevel "Overweight_Level_II" = "Moderate" ∧
    riskLevel "Obesity_Type_I" = "High" ∧
    riskLevel "Obesity_Type_II" = "Very High" ∧
    riskLevel "Obesity_Type_III" = "Extreme" ∧
    riskLevel "Insufficient_Weight" = "Unknown" ∧
    (∀ c : String,
      c ∉ ["Normal_Weight", "Overweight_Level_I", "Overweight_Level_II",
        "Obesity_Type_I", "Obesity_Type_II", "Obesity_Type_III"] →
      riskLevel c = "Unknown") ∧
    (∀ (p : Predictor) (fs : Features) (res : PredResult),
      predictP p fs = Except.ok res →
      res.risk_level = riskLevel res.prediction) := by
  refine ⟨by decide, by decide, by decide, by decide, by decide, by decide,
    by decide, ?_, ?_⟩
  · intro c hc
    simp only [List.mem_cons, List.not_mem_nil, or_false, not_or] at hc
    obtain ⟨h1, h2, h3, h4, h5, h6⟩ := hc
    unfold riskLevel
    simp [h1, h2, h3, h4, h5, h6]
  · intro p fs res h
    obtain ⟨m, vec, bmi, recs, _, _, _, _, rfl⟩ := predictP_ok_inv h
    rfl

/-- Witness for C6: an unlisted label maps to Unknown, and the example
run's result satisfies the risk/prediction link. -/
theorem risk_tier_table_witness :
    riskLevel "Some_Other_Label" = "Unknown" ∧
    exResult.risk_level = riskLevel exResult.prediction :=
  ⟨risk_tier_table.2.2.2.2.2.2.2.1 "Some_Other_Label" (by decide),
    risk_tier_table.2.2.2.2.2.2.2.2 basePredictor exInput exResult
      (by with_unfolding_all decide)⟩

/-- C10: on every successful prediction the returned `confidence` equals
the returned `probability` (both the top class probability, or both the
1.0 default); the two fields are never distinct. -/
theorem confidence_eq_probability (p : Predictor) (fs : Features)
    (res : PredResult) (h : predictP p fs = Except.ok res) :
    res.confidence = res.probability := by
  obtain ⟨m, vec, bmi, recs, _, _, _, _, rfl⟩ := predictP_ok_inv h
  rfl

/-- Witness for C10: the two fields agree on the example run. -/
theorem confidence_eq_probability_witness :
    exResult.confidence = exResult.probability :=
  confidence_eq_probability basePredictor exInput exResult
    (by with_unfolding_all decide)

/-- C1 counterexample: on the Scenario C input (`caec = "InvalidValue"`,
outside the CAEC vocabulary) the encoder does not fail at all — it
produces a feature vector, prediction succeeds, and in particular no
`UnknownCategoryError` is raised. -/
theorem unknown_category_not_raised_cex :
    (preprocessFeatures basePredictor exInputBadCaec).isOk = true ∧
    (predictP basePredictor exInputBadCaec).isOk = true ∧
    preprocessFeatures basePredictor exInputBadCaec ≠
      Except.error (PredError.unknownCategory "caec" "InvalidValue") := by
  refine ⟨?_, ?_, ?_⟩ <;> with_unfolding_all decide

/-- C1 amended: a categorical value outside its vocabulary does not make
encoding fail; whenever the encoder succeeds, the out-of-vocabulary field
(shown for CAEC) contributes an all-zero one-hot block (columns 14-17),
and the vector still has width 31. -/
theorem unknown_category_zero_block (p : Predictor) (fs : Features)
    (s : String) (v : List ℚ) (b : ℚ)
    (hc : getValue fs "CAEC" = some (Val.str s))
    (hs : s ∉ caecVocab)
    (h : preprocessFeatures p fs = Except.ok (v, b)) :
    v.length = 31 ∧ (v.drop 14).take 4 = [0, 0, 0, 0] := by
  obtain ⟨sb, r, c, hsb, hr, hcb, _, rfl⟩ := preprocessFeatures_ok_inv h
  obtain ⟨a1, a2, a3, rfl⟩ := scaledBlock_ok_shape hsb
  obtain ⟨b1, b2, b3, b4, b5, rfl⟩ := rawBlock_ok_shape hr
  obtain ⟨g, fh, fv, ca, sm, sc, cl, mt, _, _, _, hca, _, _, _, _, rfl⟩ :=
    catBlock_ok_inv hcb
  have hca2 : getCat fs "CAEC" = Except.ok (Val.str s) :=
    getCat_eq_of_getValue (by decide) hc
  have hcav : ca = Val.str s := Except.ok.inj (hca2.symm.trans hca).symm
  subst hcav
  have hz : oneHot caecVocab (Val.str s) = [0, 0, 0, 0] := by
    simp only [caecVocab, List.mem_cons, List.not_mem_nil, or_false,
      not_or] at hs
    obtain ⟨h1, h2, h3, h4⟩ := hs
    simp [oneHot, caecVocab, h1, h2, h3, h4]
  rw [hz]
  constructor <;> rfl

/-- Witness for C1 (amended): the Scenario C input encodes successfully to
the width-31 vector whose CAEC block is all zeros. -/
theorem unknown_category_zero_block_witness :
    exVecBadCaec.length = 31 ∧
    (exVecBadCaec.drop 14).take 4 = [0, 0, 0, 0] :=
  unknown_category_zero_block basePredictor exInputBadCaec "InvalidValue"
    exVecBadCaec (1280 / 49) (by with_unfolding_all decide) (by decide)
    (by with_unfolding_all decide)

/-- C3 counterexample: on the canonical input (height 175, weight 80) the
`bmi` in the prediction result is 26.12 — the exact value rounded to two
decimals — and is not exactly `weight / (height/100)^2 = 1280/49`. -/
theorem result_bmi_rounding_cex :
    (predictP basePredictor exInput).map PredResult.bmi =
      Except.ok (653 / 25 : ℚ) ∧
    (653 / 25 : ℚ) ≠ 80 / ((175 : ℚ) / 100) ^ 2 := by
  constructor <;> with_unfolding_all decide

/-- C3 amended: the BMI the encoder computes equals
`weight / (height/100)^2` exactly, from the raw unscaled values and
independent of any configured scaler; the `bmi` field of a successful
prediction result is that exact value rounded to two decimals. -/
theorem bmi_from_raw_unscaled (p : Predictor) (fs : Features) (ht w : ℚ)
    (hH : getValue fs "Height" = some (Val.num ht))
    (hW : getValue fs "Weight" = some (Val.num w))
    (h0 : ht ≠ 0) :
    computeBMI fs = Except.ok (w / (ht / 100) ^ 2) ∧
    ∀ res : PredResult, predictP p fs = Except.ok res →
      res.bmi = round2 (w / (ht / 100) ^ 2) := by
  have hbmi : computeBMI fs = Except.ok (w / (ht / 100) ^ 2) := by
    unfold computeBMI
    rw [hH, hW]
    simp [asFloat, h0]
  refine ⟨hbmi, ?_⟩
  intro res h
  obtain ⟨m, vec, bmi, recs, _, hpre, _, _, rfl⟩ := predictP_ok_inv h
  obtain ⟨sb, r, c, _, _, _, hb, _⟩ := preprocessFeatures_ok_inv hpre
  rw [hbmi] at hb
  have hbe := Except.ok.inj hb
  show round2 bmi = round2 (w / (ht / 100) ^ 2)
  rw [hbe]

/-- Witness for C3 (amended): on the canonical input the encoder BMI is
exactly 1280/49 and the result field is its two-decimal rounding. -/
theorem bmi_from_raw_unscaled_witness :
    computeBMI exInput = Except.ok ((80 : ℚ) / ((175 : ℚ) / 100) ^ 2) ∧
    exResult.bmi = round2 ((80 : ℚ) / ((175 : ℚ) / 100) ^ 2) := by
  obtain ⟨h1, h2⟩ := bmi_from_raw_unscaled basePredictor exInput 175 80
    (by with_unfolding_all decide) (by with_unfolding_all decide)
    (by with_unfolding_all decide)
  exact ⟨h1, h2 exResult (by with_unfolding_all decide)⟩

/-- C5: an input with no `weight` (under any key casing) makes `predict`
fail with the missing-feature error naming the Weight field; no partial
result is returned. -/
theorem missing_weight_fails (p : Predictor) (m : MLModel) (fs : Features)
    (a ht : ℚ) (hm : p.model = some m)
    (hA : getValue fs "Age" = some (Val.num a))
    (hH : getValue fs "Height" = some (Val.num ht))
    (hW : getValue fs "Weight" = none) :
    predictP p fs = Except.error (PredError.missingFeature "Weight") := by
  have hsb : scaledBlock p fs =
      Except.error (PredError.missingFeature "Weight") := by
    unfold scaledBlock getNum
    rw [hA, hH, hW]
    simp [asFloat]
  have hpre : preprocessFeatures p fs =
      Except.error (PredError.missingFeature "Weight") := by
    unfold preprocessFeatures
    rw [hsb]
  unfold predictP
  rw [hm, hpre]

/-- Witness for C5: the canonical input without its weight entry fails
with the missing-feature error for Weight. -/
theorem missing_weight_fails_witness :
    predictP basePredictor exInputNoWeight =
      Except.error (PredError.missingFeature "Weight") :=
  missing_weight_fails basePredictor dummyModel exInputNoWeight 30 175 rfl
    (by with_unfolding_all decide) (by with_unfolding_all decide)
    (by with_unfolding_all decide)

/-- C9: when the artifact exposes no `predict_proba`, a successful result
carries the policy default 1.0 as both probability and confidence; when a
probability row is available, the result's probability is its maximum and
confidence equals it. -/
theorem confidence_probability_policy :
    (∀ (p : Predictor) (m : MLModel) (fs : Features) (res : PredResult),
        p.model = some m → m.predictProba = none →
        predictP p fs = Except.ok res →
        res.probability = 1 ∧ res.confidence = 1) ∧
    (∀ (p : Predictor) (m : MLModel) (f : List ℚ → List ℚ) (fs : Features)
        (v : List ℚ) (b : ℚ) (res : PredResult),
        p.model = some m → m.predictProba = some f →
        preprocessFeatures p fs = Except.ok (v, b) →
        predictP p fs = Except.ok res →
        res.probability = listMax (f v) ∧
        res.confidence = res.probability) := by
  constructor
  · intro p m fs res hm hnp h
    obtain ⟨m2, vec, bmi, recs, hm2, _, _, _, rfl⟩ := predictP_ok_inv h
    rw [hm] at hm2
    have hmm : m2 = m := (Option.some.inj hm2).symm
    subst hmm
    constructor <;> simp [probOf, hnp]
  · intro p m f fs v b res hm hp hpre h
    obtain ⟨m2, vec, bmi, recs, hm2, hpre2, _, _, rfl⟩ := predictP_ok_inv h
    rw [hm] at hm2
    have hmm : m2 = m := (Option.some.inj hm2).symm
    subst hmm
    rw [hpre] at hpre2
    simp only [Except.ok.injEq, Prod.mk.injEq] at hpre2
    obtain ⟨hv, hb⟩ := hpre2
    subst hv
    constructor
    · simp [probOf, hp]
    · rfl

/-- Witness for C9: the default 1.0 on a probability-less model, and the
top probability 4/5 on a model exposing the row [1/5, 4/5]. -/
theorem confidence_probability_policy_witness :
    (exResult.probability = 1 ∧ exResult.confidence = 1) ∧
    (exResultProba.probability = listMax (probaRow exVec) ∧
      exResultProba.confidence = exResultProba.probability) :=
  ⟨confidence_probability_policy.1 basePredictor dummyModel exInput exResult
      rfl rfl (by with_unfolding_all decide),
    confidence_probability_policy.2 probaPredictor probaModel probaRow
      exInput exVec (1280 / 49) exResultProba rfl rfl
      (by with_unfolding_all decide) (by with_unfolding_all decide)⟩

/-! ### Key-casing invariance of the request pipeline -/

lemma normKey_congr {k1 k2 : String} (hu : strUpper k1 = strUpper k2)
    (hl : strLower k1 = strLower k2) : normKey k1 = normKey k2 := by
  unfold normKey
  rw [hu, hl]

lemma dictInsert_ne_nil (l : Features) (k : String) (v : Val) :
    dictInsert l k v ≠ [] := by
  unfold dictInsert
  split
  · next hcond =>
    intro hc
    rw [List.map_eq_nil_iff] at hc
    subst hc
    simp at hcond
  · simp

lemma foldl_dictInsert_ne_nil (d : Features) :
    ∀ acc : Features, (acc = [] → d ≠ []) →
      d.foldl (fun acc kv => dictInsert acc (normKey kv.1) kv.2) acc ≠ [] := by
  induction d with
  | nil =>
    intro acc hc he
    exact (hc he) rfl
  | cons a as ih =>
    intro acc _
    simp only [List.foldl_cons]
    exact ih _ (fun he => absurd he (dictInsert_ne_nil _ _ _))

lemma foldl_dictInsert_casing {d1 d2 : Features} (h : casingEq d1 d2) :
    ∀ acc : Features,
      d1.foldl (fun acc kv => dictInsert acc (normKey kv.1) kv.2) acc =
      d2.foldl (fun acc kv => dictInsert acc (normKey kv.1) kv.2) acc := by
  unfold casingEq at h
  induction d1 generalizing d2 with
  | nil =>
    cases d2 with
    | nil => intro acc; rfl
    | cons b bs => simp at h
  | cons a as ih =>
    cases d2 with
    | nil => simp at h
    | cons b bs =>
      intro acc
      simp only [List.map_cons, List.cons.injEq] at h
      obtain ⟨hab, hrest⟩ := h
      simp only [caseKey, Prod.mk.injEq] at hab
      obtain ⟨⟨hu, hl⟩, hv⟩ := hab
      simp only [List.foldl_cons]
      rw [normKey_congr hu hl, hv]
      exact ih hrest _

lemma normalizeFields_casing {d1 d2 : Features} (h : casingEq d1 d2) :
    normalizeFields d1 = normalizeFields d2 := by
  by_cases hd : d1 = []
  · subst hd
    have hd2 : d2 = [] := by
      unfold casingEq at h
      cases d2 with
      | nil => rfl
      | cons b bs => simp at h
    subst hd2
    rfl
  · have hfold := foldl_dictInsert_casing h []
    have h1 : d1.foldl (fun acc kv => dictInsert acc (normKey kv.1) kv.2)
        [] ≠ [] := foldl_dictInsert_ne_nil d1 [] (fun _ => hd)
    have h2 : (d2.foldl (fun acc kv => dictInsert acc (normKey kv.1) kv.2)
        []).isEmpty = false := by
      rw [← hfold]
      cases hres : d1.foldl (fun acc kv => dictInsert acc (normKey kv.1) kv.2)
          [] with
      | nil => exact absurd hres h1
      | cons x xs => rfl
    simp only [normalizeFields]
    rw [hfold, h2]
    simp

/-- C7: two inputs that differ only in the casing of their keys (keys
pairwise identical after upper-casing and after lower-casing, same values,
same order) produce identical results through the whole request pipeline —
key normalization, schema validation/defaulting, and prediction, the
recommendations included. -/
theorem predict_key_casing_invariant (p : Predictor) (d1 d2 : Features)
    (h : casingEq d1 d2) : pipeline p d1 = pipeline p d2 := by
  unfold pipeline
  rw [normalizeFields_casing h]

/-- Witness for C7: the all-upper-cased canonical input and the lower-case
one give the same pipeline result. -/
theorem predict_key_casing_invariant_witness :
    pipeline basePredictor exInputUpper = pipeline basePredictor exInput :=
  predict_key_casing_invariant basePredictor exInputUpper exInput
    (by with_unfolding_all decide)

lemma mem_ite_singleton {α : Type} (x y : α) (P : Prop) [Decidable P] :
    x ∈ (if P then [y] else []) ↔ P ∧ x = y := by
  split <;> simp_all

lemma mem_recList (x band : String) (P1 P2 P3 P4 : Prop)
    [Decidable P1] [Decidable P2] [Decidable P3] [Decidable P4] :
    x ∈ [band] ++ (if P1 then [hiCalMsg] else []) ++
        (if P2 then [waterMsg] else []) ++
        (if P3 then [activityMsg] else []) ++
        (if P4 then [snackMsg] else []) ↔
      x = band ∨ (P1 ∧ x = hiCalMsg) ∨ (P2 ∧ x = waterMsg) ∨
        (P3 ∧ x = activityMsg) ∨ (P4 ∧ x = snackMsg) := by
  by_cases hP1 : P1 <;> by_cases hP2 : P2 <;> by_cases hP3 : P3 <;>
    by_cases hP4 : P4 <;>
    simp [hP1, hP2, hP3, hP4, or_assoc]

/-- C8: the recommendations list is built by appending the text of every
matching rule in rule order: exactly one BMI-band message (underweight
below 18.5, maintenance in [18.5, 25), overweight in [25, 30), obesity
guidance otherwise) at the head, plus the high-calorie message when `favc`
is yes, the water message exactly when `ch2o < 2`, the activity message
when `faf < 1`, and the snacking message when `caec` is Always. -/
theorem recommendation_rules (c : String) (bmi : ℚ) (fs : Features)
    (fv ca : String) (ch fa : ℚ)
    (hfv : lookupVal fs "favc" = some (Val.str fv))
    (hch : lookupVal fs "ch2o" = some (Val.num ch))
    (hfa : lookupVal fs "faf" = some (Val.num fa))
    (hca : lookupVal fs "caec" = some (Val.str ca)) :
    ∃ recs,
      genRecommendations c bmi fs = Except.ok recs ∧
      recs = [bandMsg bmi] ++
        (if strLower fv = "yes" then [hiCalMsg] else []) ++
        (if ch < 2 then [waterMsg] else []) ++
        (if fa < 1 then [activityMsg] else []) ++
        (if strLower ca = "always" then [snackMsg] else []) ∧
      (bmi < 37 / 2 → bandMsg bmi = underweightMsg) ∧
      (37 / 2 ≤ bmi → bmi < 25 → bandMsg bmi = maintainMsg) ∧
      (25 ≤ bmi → bmi < 30 → bandMsg bmi = overweightMsg) ∧
      (30 ≤ bmi → bandMsg bmi = obesityMsg) ∧
      recs.head? = some (bandMsg bmi) ∧
      bandMsg bmi ∈
        [underweightMsg, maintainMsg, overweightMsg, obesityMsg] ∧
      (∀ x ∈ recs.tail,
        x ∉ [underweightMsg, maintainMsg, overweightMsg, obesityMsg]) ∧
      (hiCalMsg ∈ recs ↔ strLower fv = "yes") ∧
      (waterMsg ∈ recs ↔ ch < 2) ∧
      (activityMsg ∈ recs ↔ fa < 1) ∧
      (snackMsg ∈ recs ↔ strLower ca = "always") := by
  have n2 : hiCalMsg ≠ waterMsg := by decide
  have n3 : hiCalMsg ≠ activityMsg := by decide
  have n4 : hiCalMsg ≠ snackMsg := by decide
  have n5 : waterMsg ≠ activityMsg := by decide
  have n6 : waterMsg ≠ snackMsg := by decide
  have n7 : activityMsg ≠ snackMsg := by decide
  have hbnot : ∀ q : ℚ, bandMsg q ≠ hiCalMsg ∧ bandMsg q ≠ waterMsg ∧
      bandMsg q ≠ activityMsg ∧ bandMsg q ≠ snackMsg := by
    intro q
    unfold bandMsg
    split_ifs <;> exact ⟨by decide, by decide, by decide, by decide⟩
  have hbmem : ∀ q : ℚ, bandMsg q ∈
      [underweightMsg, maintainMsg, overweightMsg, obesityMsg] := by
    intro q
    unfold bandMsg
    split_ifs <;> simp
  have hgen : genRecommendations c bmi fs = Except.ok
      ([bandMsg bmi] ++
        (if strLower fv = "yes" then [hiCalMsg] else []) ++
        (if ch < 2 then [waterMsg] else []) ++
        (if fa < 1 then [activityMsg] else []) ++
        (if strLower ca = "always" then [snackMsg] else [])) := by
    unfold genRecommendations favcCond ch2oVal fafVal caecCond
    simp only [hfv, hch, hfa, hca, beq_iff_eq]
  refine ⟨_, hgen, rfl, ?_, ?_, ?_, ?_, rfl, hbmem bmi, ?_, ?_, ?_, ?_, ?_⟩
  · intro h1
    unfold bandMsg
    rw [if_pos h1]
  · intro h1 h2
    unfold bandMsg
    rw [if_neg (by linarith), if_pos h2]
  · intro h1 h2
    unfold bandMsg
    rw [if_neg (by linarith), if_neg (by linarith), if_pos h2]
  · intro h1
    unfold bandMsg
    rw [if_neg (by linarith), if_neg (by linarith), if_neg (by linarith)]
  · intro x hx
    rcases List.mem_append.mp hx with hx3 | hx4
    · rcases List.mem_append.mp hx3 with hx5 | hx6
      · rcases List.mem_append.mp hx5 with hx7 | hx8
        · obtain ⟨-, rfl⟩ := (mem_ite_singleton _ _ _).mp hx7
          decide
        · obtain ⟨-, rfl⟩ := (mem_ite_singleton _ _ _).mp hx8
          decide
      · obtain ⟨-, rfl⟩ := (mem_ite_singleton _ _ _).mp hx6
        decide
    · obtain ⟨-, rfl⟩ := (mem_ite_singleton _ _ _).mp hx4
      decide
  · rw [mem_recList]
    constructor
    · rintro (h | ⟨hP, -⟩ | ⟨-, h⟩ | ⟨-, h⟩ | ⟨-, h⟩)
      · exact absurd h.symm (hbnot bmi).1
      · exact hP
      · exact absurd h n2
      · exact absurd h n3
      · exact absurd h n4
    · intro hP
      exact Or.inr (Or.inl ⟨hP, rfl⟩)
  · rw [mem_recList]
    constructor
    · rintro (h | ⟨-, h⟩ | ⟨hP, -⟩ | ⟨-, h⟩ | ⟨-, h⟩)
      · exact absurd h.symm (hbnot bmi).2.1
      · exact absurd h n2.symm
      · exact hP
      · exact absurd h n5
      · exact absurd h n6
    · intro hP
      exact Or.inr (Or.inr (Or.inl ⟨hP, rfl⟩))
  · rw [mem_recList]
    constructor
    · rintro (h | ⟨-, h⟩ | ⟨-, h⟩ | ⟨hP, -⟩ | ⟨-, h⟩)
      · exact absurd h.symm (hbnot bmi).2.2.1
      · exact absurd h n3.symm
      · exact absurd h n5.symm
      · exact hP
      · exact absurd h n7
    · intro hP
      exact Or.inr (Or.inr (Or.inr (Or.inl ⟨hP, rfl⟩)))
  · rw [mem_recList]
    constructor
    · rintro (h | ⟨-, h⟩ | ⟨-, h⟩ | ⟨-, h⟩ | ⟨hP, -⟩)
      · exact absurd h.symm (hbnot bmi).2.2.2
      · exact absurd h n4.symm
      · exact absurd h n6.symm
      · exact absurd h n7.symm
      · exact hP
    · intro hP
      exact Or.inr (Or.inr (Or.inr (Or.inr ⟨hP, rfl⟩)))

/-- Witness for C8: on the canonical input (`favc = "yes"`, `ch2o = 2`,
`faf = 1`, `caec = "Sometimes"`, BMI 1280/49) the recommendations are the
overweight band message plus the high-calorie message, and the water
message is absent because `ch2o` is not below 2. -/
theorem recommendation_rules_witness :
    genRecommendations "0" (1280 / 49) exInput =
      Except.ok [overweightMsg, hiCalMsg] ∧
    waterMsg ∉ [overweightMsg, hiCalMsg] := by
  obtain ⟨recs, hgen, heq, -, -, -, -, -, -, -, -, hw, -, -⟩ :=
    recommendation_rules "0" (1280 / 49) exInput "yes" "Sometimes" 2 1
      (by with_unfolding_all decide) (by with_unfolding_all decide)
      (by with_unfolding_all decide) (by with_unfolding_all decide)
  have hval : recs = [overweightMsg, hiCalMsg] := by
    rw [heq]
    with_unfolding_all decide
  rw [hval] at hgen hw
  exact ⟨hgen, fun hmem =>
    absurd (hw.mp hmem) (by with_unfolding_all decide)⟩

end ObesiTrack
